import Mathlib

/-!
Shallow embedding of the capirca ACL generation driver (aclgen.py) together
with the shading analyzer and the Palo Alto Networks firewall backend as
described by the specification and exercised by the unit tests
(tests/lib/paloaltofw_test.py).  Pure fragments of the Python source are
translated into executable Lean functions; the file system and process pool
are abstracted into explicit values (file contents become Option String,
per-file results become an explicit outcome type).
-/

/- ===================== Shading analyzer (policy model) ===================== -/

/-- Modelled from the spec: policy.py is not under src/, so the term
predicate of the shading analyzer is taken from section 4.4 of the spec.
Each dimension is an optional list of atoms; none means the dimension is
unspecified and matches everything. -/
structure TermPred where
  src : Option (List String)
  dst : Option (List String)
  ports : Option (List String)
  protos : Option (List String)
  icmpTypes : Option (List String)
deriving DecidableEq

/-- Modelled from the spec: one dimension of an earlier term s covers the
same dimension of a later term t when s is unspecified, or both are
specified and every atom of t occurs in s. -/
def dimCovers (s t : Option (List String)) : Bool :=
  match s, t with
  | none, _ => true
  | some _, none => false
  | some sl, some tl => tl.all (fun x => sl.contains x)

/-- Modelled from the spec: a predicate covers another when it covers it on
every dimension simultaneously. -/
def predCovers (s t : TermPred) : Bool :=
  dimCovers s.src t.src && dimCovers s.dst t.dst && dimCovers s.ports t.ports &&
    dimCovers s.protos t.protos && dimCovers s.icmpTypes t.icmpTypes

/-- Modelled from the spec: a term of the policy model, reduced to the data
the shading analyzer consults. -/
structure PolTerm where
  name : String
  action : String
  pred : TermPred
deriving DecidableEq

/-- Modelled from the spec: the terminating actions are the accept, deny and
reject family; the actions next and count do not terminate evaluation. -/
def terminatingAction (a : String) : Bool :=
  a = "accept" || a = "deny" || a = "reject" || a = "reject-with-tcp-rst"

/-- Modelled from the spec: term t is shaded by an earlier term s when s has
a terminating action and the predicate of s covers the predicate of t. -/
def shadedBy (s t : PolTerm) : Bool :=
  terminatingAction s.action && predCovers s.pred t.pred

/-- Modelled from the spec: walk the terms in order, keeping the list of
earlier terms, and report the first (earlier, later) pair of term names in
a shading relation. -/
def findShadingAux (earlier : List PolTerm) : List PolTerm → Option (String × String)
  | [] => none
  | t :: rest =>
    match earlier.find? (fun s => shadedBy s t) with
    | some s => some (s.name, t.name)
    | none => findShadingAux (earlier ++ [t]) rest

/-- Modelled from the spec: shading detection over a whole term list. -/
def findShading (ts : List PolTerm) : Option (String × String) :=
  findShadingAux [] ts

/-- Result of policy.ParsePolicy as observed by aclgen.RenderFile: success,
a ShadingError carrying both term names, or a parse error. -/
inductive ParseResult where
  | ok (pol : List PolTerm)
  | shading (earlierName laterName : String)
  | polError (msg : String)
deriving DecidableEq

/-- Modelled from the spec: policy.ParsePolicy raises ShadingError naming
both terms when shade checking is requested and a term is shaded; malformed
input raises a parse error; otherwise it returns the parsed policy. -/
def ParsePolicy (shadeCheck : Bool) (terms : List PolTerm) (parseOk : Bool) : ParseResult :=
  if !parseOk then .polError "syntax error" else
  match (if shadeCheck then findShading terms else none) with
  | some st => .shading st.1 st.2
  | none => .ok terms

/- ===================== Driver model (aclgen.py) ===================== -/

/-- Outcome of aclgen.RenderFile for one policy file, as seen by Run: the
file rendered (with its scheduled writes), the file was abandoned after a
caught ShadingError, or the file raised ACLParserError or ACLGeneratorError. -/
inductive FileOutcome where
  | rendered (writes : List (String × String))
  | skippedShading (earlierName laterName : String)
  | aclParserError (msg : String)
  | aclGeneratorError (msg : String)
deriving DecidableEq

/-- Embedding of aclgen.RenderFile: parse the policy; a ShadingError is
caught, logged as a warning, and the function returns with no outcome for
the caller; policy and naming errors are re-raised as ACLParserError; a
backend error during generation is re-raised as ACLGeneratorError; otherwise
the rendered writes are produced. -/
def RenderFile (inputFile : String) (shadeCheck : Bool) (conf : List PolTerm)
    (parseOk : Bool) (gen : List PolTerm → Except String (List (String × String))) :
    FileOutcome :=
  match ParsePolicy shadeCheck conf parseOk with
  | .shading s t => .skippedShading s t
  | .polError m => .aclParserError ("Error parsing policy file " ++ inputFile ++ ":" ++ m)
  | .ok pol =>
    match gen pol with
    | .error e => .aclGeneratorError ("Error generating target ACL for " ++ inputFile ++ ":" ++ e)
    | .ok ws => .rendered ws

/-- The writes a file outcome contributed to the shared write list. -/
def writesOf : FileOutcome → List (String × String)
  | .rendered ws => ws
  | _ => []

/-- Whether Run counts this outcome as an error: exactly ACLParserError and
ACLGeneratorError are caught around result.get(). -/
def isFileError : FileOutcome → Bool
  | .aclParserError _ => true
  | .aclGeneratorError _ => true
  | _ => false

/-- Embedding of aclgen.Run over the per-file outcomes of the worker pool:
with_errors is set when any result raised ACLParserError or
ACLGeneratorError, all collected writes are flushed to disk, and the exit
status is 1 when with_errors is set and 0 otherwise. -/
def Run (outcomes : List FileOutcome) : Nat × List (String × String) :=
  let withErrors := outcomes.any isFileError
  let writeFiles := outcomes.foldl (fun acc o => acc ++ writesOf o) []
  (if withErrors then 1 else 0, writeFiles)

/- ===================== Output diffing (aclgen.py) ===================== -/

/-- Embedding of aclgen.SkipLines: with no skip function the text is
returned unchanged, otherwise every line the function flags is removed. -/
def SkipLines (text : List String) : Option (String → Bool) → List String
  | none => text
  | some f => text.filter (fun x => !f x)

/-- Whether the second character list is an initial segment of the first,
by structural recursion so that concrete instances evaluate. -/
def listStartsWith : List Char → List Char → Bool
  | _, [] => true
  | [], _ :: _ => false
  | a :: as, b :: bs => a = b && listStartsWith as bs

/-- Whether needle occurs as a contiguous segment of hay. -/
def listHasSub (hay needle : List Char) : Bool :=
  match hay with
  | [] => needle.isEmpty
  | c :: rest => listStartsWith (c :: rest) needle || listHasSub rest needle

/-- True when needle occurs as a substring of hay (the Python operator
needle in hay). -/
def strContainsSub (hay needle : String) : Bool :=
  listHasSub hay.data needle.data

/-- Splitting a character list at every newline, keeping empty pieces
(the Python method text.split over a single newline separator). -/
def splitLinesAux (acc : List Char) : List Char → List String
  | [] => [String.mk acc.reverse]
  | c :: cs =>
    if c = '\n' then String.mk acc.reverse :: splitLinesAux [] cs
    else splitLinesAux (c :: acc) cs

/-- Splitting a string into its newline-separated lines, keeping empty
pieces, exactly as the Python expression text.split with a newline. -/
def splitLines (s : String) : List String :=
  splitLinesAux [] s.data

/-- Embedding of the p4_tags predicate of aclgen.FilesUpdated: a line is
skipped when it contains a p4 Id, Date or Revision tag. -/
def p4Tags (x : String) : Bool :=
  strContainsSub x "$Id:" || strContainsSub x "$Date:" || strContainsSub x "$Revision:"

/-- Embedding of aclgen.FilesUpdated: the old file content is none when the
file could not be read (IOError), in which case the file counts as updated;
for binary output raw contents are compared; for text output both contents
are split into lines, p4 tag lines are dropped, and the line lists are
compared. -/
def FilesUpdated (oldContent : Option String) (newText : String) (binary : Bool) : Bool :=
  match oldContent with
  | none => true
  | some conf =>
    if binary then conf != newText
    else
      SkipLines (splitLines conf) (some p4Tags) !=
        SkipLines (splitLines newText) (some p4Tags)

/-- Embedding of aclgen.RenderACL: the output file (its name computed by the
caller from the output directory, policy file base name and backend suffix)
is appended to the write list exactly when FilesUpdated reports a change. -/
def RenderACL (aclText : String) (outputFile : String) (oldContent : Option String)
    (binary : Bool) (writeFiles : List (String × String)) : List (String × String) :=
  if FilesUpdated oldContent aclText binary then writeFiles ++ [(outputFile, aclText)]
  else writeFiles

/- ===================== Palo Alto backend model ===================== -/

/-- Modelled from the spec: paloaltofw.py is not under src/; a term of the
Palo Alto backend carries the data its validation and rendering consult, as
described in section 4.5 of the spec and checked by the unit tests.  The
field extraFields lists the names of any further fields the term sets
beyond action, options and logging. -/
structure PATerm where
  name : String
  action : String
  opts : List String
  logging : Option String
  statelessReply : Bool
  extraFields : List String
deriving DecidableEq

/-- The SupportedTokens capability set of the Palo Alto backend, as declared
by the backend and pinned down by tests/lib/paloaltofw_test.py. -/
def paSupportedTokens : List String :=
  ["action", "comment", "destination_address", "destination_address_exclude",
   "destination_port", "expiration", "icmp_type", "logging", "name", "option",
   "owner", "platform", "protocol", "source_address", "source_address_exclude",
   "source_port", "stateless_reply", "timeout", "pan_application", "translated"]

/-- The SupportedSubTokens entry for the action field of the Palo Alto
backend (tests/lib/paloaltofw_test.py, SUPPORTED_SUB_TOKENS). -/
def paActionSubTokens : List String :=
  ["accept", "deny", "reject", "reject-with-tcp-rst"]

/-- The SupportedSubTokens entry for the option field of the Palo Alto
backend (tests/lib/paloaltofw_test.py, SUPPORTED_SUB_TOKENS). -/
def paOptionSubTokens : List String :=
  ["established", "tcp-established"]

/-- Errors raised while constructing the Palo Alto generator. -/
inductive PAError where
  | unsupportedFilter (termName field value : String)
  | nameTooLong (msg : String)
deriving DecidableEq

/-- Modelled from the spec: validation of one term against the capability
sets — a set field absent from SupportedTokens, or an action or option value
absent from the matching SupportedSubTokens entry, yields
UnsupportedFilterError naming term, field and value. -/
def findUnsupported (t : PATerm) : Option PAError :=
  match t.extraFields.find? (fun f => !paSupportedTokens.contains f) with
  | some f => some (.unsupportedFilter t.name f f)
  | none =>
    if !paActionSubTokens.contains t.action then
      some (.unsupportedFilter t.name "action" t.action)
    else
      match t.opts.find? (fun o => !paOptionSubTokens.contains o) with
      | some o => some (.unsupportedFilter t.name "option" o)
      | none => none

/-- Modelled from the spec: the Palo Alto backend is inherently stateful and
silently omits terms whose stateless_reply flag is set or whose options
include the connection-state shortcuts established or tcp-established
(tests testSkipStatelessReply and testSkipEstablished). -/
def skipTerm (t : PATerm) : Bool :=
  t.statelessReply || t.opts.contains "established" || t.opts.contains "tcp-established"

/-- Modelled from the spec: the zone-name length checks of the Palo Alto
backend — zone names are limited to 31 characters, the source zone checked
first (test testZoneLen). -/
def checkZones (fz tz : String) : Option PAError :=
  if fz.length > 31 then
    some (.nameTooLong ("Source zone must be 31 characters max: " ++ fz))
  else if tz.length > 31 then
    some (.nameTooLong ("Destination zone must be 31 characters max: " ++ tz))
  else none

/-- Modelled from the spec: the native action text of the Palo Alto backend
(tests testAcceptAction, testDenyAction, testRejectAction, testResetAction). -/
def actionText (a : String) : String :=
  if a = "accept" then "allow"
  else if a = "deny" then "deny"
  else if a = "reject" then "reset-client"
  else if a = "reject-with-tcp-rst" then "reset-client"
  else a

/-- Modelled from the spec: the log-start and log-end elements rendered for
a logging value (tests testDisableLogging, testLoggingBoth, testLogging). -/
def logElems (lg : Option String) : Option String × Option String :=
  match lg with
  | some "disable" => (some "no", some "no")
  | some "log-both" => (some "yes", some "yes")
  | some v =>
    if v = "true" || v = "True" || v = "syslog" || v = "local" then (none, some "yes")
    else (none, none)
  | none => (none, none)

/-- One rendered security rule entry of the Palo Alto configuration. -/
structure PARule where
  name : String
  action : String
  logStart : Option String
  logEnd : Option String
  fromZone : String
  toZone : String
  tags : List String
deriving DecidableEq

/-- Modelled from the spec: rendering of one non-skipped term into a rule
entry of the given zone pair, carrying the given tag list. -/
def renderTerm (fz tz : String) (tg : List String) (t : PATerm) : PARule :=
  ⟨t.name, actionText t.action, (logElems t.logging).1, (logElems t.logging).2, fz, tz, tg⟩

/-- A header of a Palo Alto filter block: the target zone pair plus the
free-text comment lines. -/
structure PAHeader where
  fromZone : String
  toZone : String
  comments : List String
deriving DecidableEq

/-- Modelled from the spec: the deterministic tag key of a header — its
target parameters together with the space-joined concatenation of its
comment lines. -/
def tagKey (h : PAHeader) : String × String × String :=
  (h.fromZone, h.toZone, String.intercalate " " h.comments)

/-- One tag entry of the rendered configuration: its name and its
descriptive comment text. -/
structure PATagEntry where
  name : String
  comments : String
deriving DecidableEq

/-- The tag-allocation state threaded through a compilation: the key-to-name
assignment, the allocation counter, and the emitted tag entries. -/
structure TagState where
  assigned : List ((String × String × String) × String)
  counter : Nat
  entries : List PATagEntry
deriving DecidableEq

/-- The empty tag state a compilation starts from. -/
def tagState0 : TagState := ⟨[], 0, []⟩

/-- Look a tag key up in the assignment list. -/
def lookupTag (assigned : List ((String × String × String) × String))
    (k : String × String × String) : Option String :=
  (assigned.find? (fun p => decide (p.1 = k))).map Prod.snd

/-- Modelled from the spec: obtain the tag list for a header — no comments
produce no tag; otherwise the first header seen with the key allocates a
fresh tag named after the zones and a counter, whose descriptive text is the
comment concatenation, and later headers with the same key reuse it. -/
def getTag (s : TagState) (h : PAHeader) : TagState × List String :=
  if h.comments.isEmpty then (s, [])
  else
    match lookupTag s.assigned (tagKey h) with
    | some tn => (s, [tn])
    | none =>
      let n := s.counter + 1
      let tn := h.fromZone ++ "_" ++ h.toZone ++ "_policy-comment-" ++ toString n
      (⟨s.assigned ++ [(tagKey h, tn)], n,
        s.entries ++ [⟨tn, String.intercalate " " h.comments⟩]⟩, [tn])

/-- Modelled from the spec: render the blocks in order, threading the tag
state, and keep each block paired with the rules rendered from it. -/
def paRenderGroups (s : TagState) :
    List (PAHeader × List PATerm) → TagState × List ((PAHeader × List PATerm) × List PARule)
  | [] => (s, [])
  | b :: bs =>
    let gt := getTag s b.1
    let rules := (b.2.filter (fun t => !skipTerm t)).map (renderTerm b.1.fromZone b.1.toZone gt.2)
    let rest := paRenderGroups gt.1 bs
    (rest.1, (b, rules) :: rest.2)

/-- Modelled from the spec: validation of one filter block — the structural
zone-length checks of the header, then every term against the capability
sets. -/
def validateBlock (h : PAHeader) (ts : List PATerm) : Option PAError :=
  match checkZones h.fromZone h.toZone with
  | some e => some e
  | none => ts.findSome? findUnsupported

/-- The rendered Palo Alto configuration: the rule entries in order and the
allocated tag entries. -/
structure PAConfig where
  rules : List PARule
  tags : List PATagEntry
deriving DecidableEq

/-- Modelled from the spec: construction of the Palo Alto generator for a
parsed policy — validate every filter block, failing with the first error,
then render all blocks under one tag state started empty. -/
def paFW (blocks : List (PAHeader × List PATerm)) : Except PAError PAConfig :=
  match blocks.findSome? (fun b => validateBlock b.1 b.2) with
  | some e => .error e
  | none =>
    let res := paRenderGroups tagState0 blocks
    .ok ⟨(res.2.map Prod.snd).flatten, res.1.entries⟩

/-- Modelled from the spec: compiling the same input twice, as one value. -/
def compileTwice (blocks : List (PAHeader × List PATerm)) :
    Except PAError PAConfig × Except PAError PAConfig :=
  (paFW blocks, paFW blocks)

/- ===================== Helper lemmas ===================== -/

/-- Folding the write lists of the outcomes onto an accumulator appends the
flattened write lists. -/
theorem foldl_writes_eq (l : List FileOutcome) :
    ∀ init, l.foldl (fun acc o => acc ++ writesOf o) init = init ++ (l.map writesOf).flatten := by
  induction l with
  | nil => intro init; simp
  | cons a as ih => intro init; simp [ih, List.append_assoc]

/-- The write list Run flushes is the concatenation of the write lists of
all outcomes. -/
theorem run_writes_eq (outcomes : List FileOutcome) :
    (Run outcomes).2 = (outcomes.map writesOf).flatten := by
  simpa using foldl_writes_eq outcomes []

/- ===================== Claims about the driver ===================== -/

/-- Claim C1 counterexample: a policy whose second term is shaded by an
earlier terminating catch-all term, compiled with shade checking requested,
yields a ShadingError inside RenderFile, yet the driver's overall status is
success (exit status 0), contradicting the claim that the file's failure is
reflected in the driver's overall failure status. -/
theorem claim_C1_counterexample :
    findShading [⟨"term-one", "deny", ⟨none, none, none, none, none⟩⟩,
                 ⟨"term-two", "accept", ⟨none, none, none, none, none⟩⟩] =
      some ("term-one", "term-two") ∧
    RenderFile "example.pol" true
        [⟨"term-one", "deny", ⟨none, none, none, none, none⟩⟩,
         ⟨"term-two", "accept", ⟨none, none, none, none, none⟩⟩] true
        (fun _ => .ok [("example.acl", "acl text")]) =
      .skippedShading "term-one" "term-two" ∧
    (Run [RenderFile "example.pol" true
        [⟨"term-one", "deny", ⟨none, none, none, none, none⟩⟩,
         ⟨"term-two", "accept", ⟨none, none, none, none, none⟩⟩] true
        (fun _ => .ok [("example.acl", "acl text")])]).1 = 0 := by
  refine ⟨rfl, rfl, rfl⟩

/-- Claim C1 (amended): when shade checking is requested and a term is
shaded by an earlier terminating term, parsing fails with a ShadingError
identifying both term names, but RenderFile catches it: the file's
compilation is abandoned with no scheduled writes, no ACLParserError or
ACLGeneratorError reaches the caller, and a run consisting of that file
reports overall success (exit status 0) rather than failure. -/
theorem claim_C1_amended (inputFile : String) (terms : List PolTerm)
    (gen : List PolTerm → Except String (List (String × String)))
    (s t : String) (h : findShading terms = some (s, t)) :
    ParsePolicy true terms true = .shading s t ∧
    RenderFile inputFile true terms true gen = .skippedShading s t ∧
    writesOf (RenderFile inputFile true terms true gen) = [] ∧
    isFileError (RenderFile inputFile true terms true gen) = false ∧
    (Run [RenderFile inputFile true terms true gen]).1 = 0 := by
  have hp : ParsePolicy true terms true = .shading s t := by
    simp [ParsePolicy, h]
  have hr : RenderFile inputFile true terms true gen = .skippedShading s t := by
    simp [RenderFile, hp]
  refine ⟨hp, hr, ?_, ?_, ?_⟩
  · rw [hr]; rfl
  · rw [hr]; rfl
  · rw [hr]; rfl

/-- Claim C1 amended witness: the amended statement evaluated on a concrete
shaded two-term policy. -/
theorem claim_C1_amended_witness :
    ParsePolicy true [⟨"rule-a", "deny", ⟨none, none, none, none, none⟩⟩,
                      ⟨"rule-b", "accept", ⟨none, none, none, none, none⟩⟩] true =
      .shading "rule-a" "rule-b" ∧
    RenderFile "one.pol" true
        [⟨"rule-a", "deny", ⟨none, none, none, none, none⟩⟩,
         ⟨"rule-b", "accept", ⟨none, none, none, none, none⟩⟩] true
        (fun _ => .ok []) = .skippedShading "rule-a" "rule-b" ∧
    writesOf (RenderFile "one.pol" true
        [⟨"rule-a", "deny", ⟨none, none, none, none, none⟩⟩,
         ⟨"rule-b", "accept", ⟨none, none, none, none, none⟩⟩] true
        (fun _ => .ok [])) = [] ∧
    isFileError (RenderFile "one.pol" true
        [⟨"rule-a", "deny", ⟨none, none, none, none, none⟩⟩,
         ⟨"rule-b", "accept", ⟨none, none, none, none, none⟩⟩] true
        (fun _ => .ok [])) = false ∧
    (Run [RenderFile "one.pol" true
        [⟨"rule-a", "deny", ⟨none, none, none, none, none⟩⟩,
         ⟨"rule-b", "accept", ⟨none, none, none, none, none⟩⟩] true
        (fun _ => .ok [])]).1 = 0 :=
  claim_C1_amended "one.pol"
    [⟨"rule-a", "deny", ⟨none, none, none, none, none⟩⟩,
     ⟨"rule-b", "accept", ⟨none, none, none, none, none⟩⟩]
    (fun _ => .ok []) "rule-a" "rule-b" rfl

/-- Claim C2: Run reports exit status 1 exactly when at least one file
outcome raised ACLParserError or ACLGeneratorError and exit status 0
otherwise, and every write scheduled by any file, failing siblings
notwithstanding, is in the list flushed to disk. -/
theorem claim_C2 (outcomes : List FileOutcome) :
    ((Run outcomes).1 = 1 ↔ ∃ o ∈ outcomes, isFileError o = true) ∧
    ((Run outcomes).1 = 0 ↔ ∀ o ∈ outcomes, isFileError o = false) ∧
    ∀ o ∈ outcomes, ∀ w ∈ writesOf o, w ∈ (Run outcomes).2 := by
  have h1 : (Run outcomes).1 = if outcomes.any isFileError then 1 else 0 := rfl
  refine ⟨?_, ?_, ?_⟩
  · rw [h1]
    cases ha : outcomes.any isFileError with
    | true => simpa using List.any_eq_true.mp ha
    | false =>
      simp only [Bool.false_eq_true, if_false]
      constructor
      · intro h; exact absurd h (by decide)
      · rintro ⟨o, ho, hpo⟩
        exact absurd hpo (List.any_eq_false.mp ha o ho)
  · rw [h1]
    cases ha : outcomes.any isFileError with
    | true =>
      simp only [if_true]
      constructor
      · intro h; exact absurd h (by decide)
      · intro h
        rcases List.any_eq_true.mp ha with ⟨o, ho, hpo⟩
        rw [h o ho] at hpo
        cases hpo
    | false =>
      simp only [Bool.false_eq_true, if_false]
      constructor
      · intro _ o ho
        exact Bool.eq_false_iff.mpr (List.any_eq_false.mp ha o ho)
      · intro _; trivial
  · intro o ho w hw
    rw [run_writes_eq]
    exact List.mem_flatten.mpr ⟨writesOf o, List.mem_map_of_mem writesOf ho, hw⟩

/-- Claim C2 witness: a two-file run where one file fails with
ACLParserError exits with status 1 and still flushes the sibling file's
output. -/
theorem claim_C2_witness :
    (Run [FileOutcome.rendered [("sib.acl", "sibling text")],
          FileOutcome.aclParserError "boom"]).1 = 1 ∧
    ("sib.acl", "sibling text") ∈
      (Run [FileOutcome.rendered [("sib.acl", "sibling text")],
            FileOutcome.aclParserError "boom"]).2 := by
  have h := claim_C2 [FileOutcome.rendered [("sib.acl", "sibling text")],
                      FileOutcome.aclParserError "boom"]
  refine ⟨h.1.mpr (by decide), ?_⟩
  exact h.2.2 (FileOutcome.rendered [("sib.acl", "sibling text")]) (by decide)
    ("sib.acl", "sibling text") (by decide)

/-- Claim C7: RenderACL appends the output file to the write list exactly
when FilesUpdated reports a change (and leaves the list unchanged
otherwise); FilesUpdated reports a change whenever the existing file cannot
be read, and for non-binary output it reports a change exactly when the old
and new texts differ after splitting into lines and removing every line
containing a p4 Id, Date or Revision tag. -/
theorem claim_C7 (aclText outputFile : String) (oldContent : Option String)
    (binary : Bool) (writeFiles : List (String × String)) (conf : String) :
    (RenderACL aclText outputFile oldContent binary writeFiles =
        writeFiles ++ [(outputFile, aclText)] ↔
      FilesUpdated oldContent aclText binary = true) ∧
    (FilesUpdated oldContent aclText binary = false →
      RenderACL aclText outputFile oldContent binary writeFiles = writeFiles) ∧
    FilesUpdated none aclText binary = true ∧
    (FilesUpdated (some conf) aclText false = true ↔
      SkipLines (splitLines conf) (some p4Tags) ≠
        SkipLines (splitLines aclText) (some p4Tags)) := by
  refine ⟨?_, ?_, rfl, ?_⟩
  · cases hF : FilesUpdated oldContent aclText binary with
    | true => simp [RenderACL, hF]
    | false => simp [RenderACL, hF]
  · intro hF
    simp [RenderACL, hF]
  · simp only [FilesUpdated, Bool.false_eq_true, if_false]
    simp [bne_iff_ne]

/-- Claim C7 witness: a concrete old file differing from the new text only
in a p4 Id line is not rescheduled for writing, and an unreadable old file
counts as updated. -/
theorem claim_C7_witness :
    RenderACL "a\n$Id: two $\nb" "out.acl" (some "a\n$Id: one $\nb") false [] = [] ∧
    FilesUpdated none "fresh" false = true := by
  have h := claim_C7 "a\n$Id: two $\nb" "out.acl" (some "a\n$Id: one $\nb") false []
    "a\n$Id: one $\nb"
  exact ⟨h.2.1 (by decide), h.2.2.1⟩

/-- Claim C8: rendering in the embedding is a pure function of the parsed
blocks, so compiling the same input twice produces identical output. -/
theorem claim_C8 (blocks : List (PAHeader × List PATerm)) :
    (compileTwice blocks).1 = (compileTwice blocks).2 := rfl

/-- Claim C9: the Palo Alto backend renders action accept as allow, deny as
deny, and both reject and reject-with-tcp-rst as reset-client, so the two
reject forms produce identical native actions. -/
theorem claim_C9 (fz tz : String) (tg : List String) (t u : PATerm) :
    (t.action = "accept" → (renderTerm fz tz tg t).action = "allow") ∧
    (t.action = "deny" → (renderTerm fz tz tg t).action = "deny") ∧
    (t.action = "reject" → (renderTerm fz tz tg t).action = "reset-client") ∧
    (t.action = "reject-with-tcp-rst" →
      (renderTerm fz tz tg t).action = "reset-client") ∧
    (t.action = "reject" → u.action = "reject-with-tcp-rst" →
      (renderTerm fz tz tg t).action = (renderTerm fz tz tg u).action) := by
  refine ⟨?_, ?_, ?_, ?_, ?_⟩
  · intro h; simp [renderTerm, actionText, h]
  · intro h; simp [renderTerm, actionText, h]
  · intro h; simp [renderTerm, actionText, h]
  · intro h; simp [renderTerm, actionText, h]
  · intro h hu; simp [renderTerm, actionText, h, hu]

/-- Claim C9 witness: the action mapping evaluated on four concrete terms. -/
theorem claim_C9_witness :
    (renderTerm "trust" "untrust" [] ⟨"t-acc", "accept", [], none, false, []⟩).action
        = "allow" ∧
    (renderTerm "trust" "untrust" [] ⟨"t-den", "deny", [], none, false, []⟩).action
        = "deny" ∧
    (renderTerm "trust" "untrust" [] ⟨"t-rej", "reject", [], none, false, []⟩).action
        = "reset-client" ∧
    (renderTerm "trust" "untrust" [] ⟨"t-rst", "reject-with-tcp-rst", [], none, false, []⟩).action
        = "reset-client" ∧
    (renderTerm "trust" "untrust" [] ⟨"t-rej", "reject", [], none, false, []⟩).action =
      (renderTerm "trust" "untrust" [] ⟨"t-rst", "reject-with-tcp-rst", [], none, false, []⟩).action := by
  have h1 := claim_C9 "trust" "untrust" [] ⟨"t-acc", "accept", [], none, false, []⟩
    ⟨"t-rst", "reject-with-tcp-rst", [], none, false, []⟩
  have h2 := claim_C9 "trust" "untrust" [] ⟨"t-den", "deny", [], none, false, []⟩
    ⟨"t-rst", "reject-with-tcp-rst", [], none, false, []⟩
  have h3 := claim_C9 "trust" "untrust" [] ⟨"t-rej", "reject", [], none, false, []⟩
    ⟨"t-rst", "reject-with-tcp-rst", [], none, false, []⟩
  have h4 := claim_C9 "trust" "untrust" [] ⟨"t-rst", "reject-with-tcp-rst", [], none, false, []⟩
    ⟨"t-rst", "reject-with-tcp-rst", [], none, false, []⟩
  exact ⟨h1.1 rfl, h2.2.1 rfl, h3.2.2.1 rfl, h4.2.2.2.1 rfl, h3.2.2.2.2 rfl rfl⟩

/-- Claim C10: the logging mode of a term determines its rendered log
elements — disable renders log-start no and log-end no, log-both renders
log-start yes and log-end yes, and each of true, True, syslog and local
renders log-end yes with no log-start element. -/
theorem claim_C10 (fz tz : String) (tg : List String) (t : PATerm) :
    (t.logging = some "disable" →
      (renderTerm fz tz tg t).logStart = some "no" ∧
        (renderTerm fz tz tg t).logEnd = some "no") ∧
    (t.logging = some "log-both" →
      (renderTerm fz tz tg t).logStart = some "yes" ∧
        (renderTerm fz tz tg t).logEnd = some "yes") ∧
    (∀ v, (v = "true" ∨ v = "True" ∨ v = "syslog" ∨ v = "local") →
      t.logging = some v →
        (renderTerm fz tz tg t).logStart = none ∧
          (renderTerm fz tz tg t).logEnd = some "yes") := by
  refine ⟨?_, ?_, ?_⟩
  · intro h
    constructor <;> simp [renderTerm, h, logElems]
  · intro h
    constructor <;> simp [renderTerm, h, logElems]
  · intro v hv h
    rcases hv with hv | hv | hv | hv <;> subst hv <;>
      constructor <;> simp [renderTerm, h, logElems]

/-- Claim C10 witness: the logging mapping evaluated on concrete terms for
each of the six logging values. -/
theorem claim_C10_witness :
    ((renderTerm "a" "b" [] ⟨"t1", "accept", [], some "disable", false, []⟩).logStart
        = some "no" ∧
      (renderTerm "a" "b" [] ⟨"t1", "accept", [], some "disable", false, []⟩).logEnd
        = some "no") ∧
    ((renderTerm "a" "b" [] ⟨"t2", "accept", [], some "log-both", false, []⟩).logStart
        = some "yes" ∧
      (renderTerm "a" "b" [] ⟨"t2", "accept", [], some "log-both", false, []⟩).logEnd
        = some "yes") ∧
    ((renderTerm "a" "b" [] ⟨"t3", "accept", [], some "syslog", false, []⟩).logStart
        = none ∧
      (renderTerm "a" "b" [] ⟨"t3", "accept", [], some "syslog", false, []⟩).logEnd
        = some "yes") := by
  have h1 := claim_C10 "a" "b" [] ⟨"t1", "accept", [], some "disable", false, []⟩
  have h2 := claim_C10 "a" "b" [] ⟨"t2", "accept", [], some "log-both", false, []⟩
  have h3 := claim_C10 "a" "b" [] ⟨"t3", "accept", [], some "syslog", false, []⟩
  exact ⟨h1.1 rfl, h2.2.1 rfl, h3.2.2 "syslog" (Or.inr (Or.inr (Or.inl rfl))) rfl⟩

/- ===================== Helper lemmas for the backend claims ===================== -/

/-- If some element of a list is sent to a some value, findSome? over the
list yields a some value. -/
theorem findSome?_isSome_of_mem {α β : Type} (f : α → Option β) {x : α} {l : List α}
    (hx : x ∈ l) {y : β} (hy : f x = some y) : (l.findSome? f).isSome = true := by
  induction l with
  | nil => cases hx
  | cons a as ih =>
    cases hx with
    | head => rw [List.findSome?_cons, hy]; rfl
    | tail _ hmem =>
      rw [List.findSome?_cons]
      cases hfa : f a with
      | some b => rfl
      | none => exact ih hmem

/-- Every error produced by term validation is an UnsupportedFilterError. -/
theorem findUnsupported_shape {t : PATerm} {e : PAError}
    (h : findUnsupported t = some e) :
    ∃ n f v, e = PAError.unsupportedFilter n f v := by
  unfold findUnsupported at h
  split at h
  next f _ => exact ⟨t.name, f, f, (Option.some.inj h).symm⟩
  next =>
    split at h
    · exact ⟨t.name, "action", t.action, (Option.some.inj h).symm⟩
    · split at h
      next o _ => exact ⟨t.name, "option", o, (Option.some.inj h).symm⟩
      next => cases h

/-- A term that sets an unsupported field, an unsupported action value or an
unsupported option value fails validation. -/
theorem bad_term_unsupported {t : PATerm}
    (hbad : (∃ f ∈ t.extraFields, paSupportedTokens.contains f = false) ∨
      paActionSubTokens.contains t.action = false ∨
      (∃ o ∈ t.opts, paOptionSubTokens.contains o = false)) :
    (findUnsupported t).isSome = true := by
  unfold findUnsupported
  split
  next => rfl
  next hf =>
    split
    next => rfl
    next hact =>
      split
      next => rfl
      next hopt =>
        exfalso
        have hf' := List.find?_eq_none.mp hf
        have hopt' := List.find?_eq_none.mp hopt
        have hact' : paActionSubTokens.contains t.action = true := by
          cases hc : paActionSubTokens.contains t.action with
          | true => rfl
          | false => exact absurd (by rw [hc]; rfl) hact
        rcases hbad with ⟨f, hfm, hfc⟩ | hac | ⟨o, hom, hoc⟩
        · exact hf' f hfm (by rw [hfc]; rfl)
        · rw [hact'] at hac; cases hac
        · exact hopt' o hom (by rw [hoc]; rfl)

/-- Validation of a single block with passing zone checks returns the result
of searching the terms. -/
theorem validateBlock_eq {h : PAHeader} (ts : List PATerm)
    (hz : checkZones h.fromZone h.toZone = none) :
    validateBlock h ts = ts.findSome? findUnsupported := by
  unfold validateBlock
  rw [hz]

/-- Constructing the generator for a single block whose validation fails
returns that error. -/
theorem paFW_single_error {h : PAHeader} {ts : List PATerm} {e : PAError}
    (hv : validateBlock h ts = some e) :
    paFW [(h, ts)] = .error e := by
  have hfs : ([(h, ts)] : List (PAHeader × List PATerm)).findSome?
      (fun b => validateBlock b.1 b.2) = some e := by
    rw [List.findSome?_cons]
    simp only [hv]
  unfold paFW
  rw [hfs]

/-- Constructing the generator for a single block whose validation passes
renders the block's non-skipped terms under a fresh tag state. -/
theorem paFW_single_ok {h : PAHeader} {ts : List PATerm}
    (hv : validateBlock h ts = none) :
    paFW [(h, ts)] =
      .ok ⟨((paRenderGroups tagState0 [(h, ts)]).2.map Prod.snd).flatten,
           (paRenderGroups tagState0 [(h, ts)]).1.entries⟩ := by
  have hfs : ([(h, ts)] : List (PAHeader × List PATerm)).findSome?
      (fun b => validateBlock b.1 b.2) = none := by
    rw [List.findSome?_cons]
    simp only [hv]
    rw [List.findSome?_nil]
  unfold paFW
  rw [hfs]

/-- The rule group rendered from a single block. -/
theorem paRenderGroups_single (s : TagState) (h : PAHeader) (ts : List PATerm) :
    (paRenderGroups s [(h, ts)]).2 =
      [((h, ts), (ts.filter (fun t => !skipTerm t)).map
          (renderTerm h.fromZone h.toZone (getTag s h).2))] := rfl

/- ===================== Claims about the backend contract ===================== -/

/-- Claim C3: a term setting a field outside SupportedTokens, or an action
or option value outside the matching SupportedSubTokens entry, makes the
construction of the Palo Alto generator for its filter block fail with an
UnsupportedFilterError; the backend's action sub-tokens are exactly accept,
deny, reject and reject-with-tcp-rst, and option inactive, action count and
action next are unsupported. -/
theorem claim_C3 (h : PAHeader) (terms : List PATerm) (t : PATerm)
    (hmem : t ∈ terms)
    (hz : checkZones h.fromZone h.toZone = none)
    (hbad : (∃ f ∈ t.extraFields, paSupportedTokens.contains f = false) ∨
      paActionSubTokens.contains t.action = false ∨
      (∃ o ∈ t.opts, paOptionSubTokens.contains o = false)) :
    (∃ n f v, paFW [(h, terms)] = .error (PAError.unsupportedFilter n f v)) ∧
    paActionSubTokens = ["accept", "deny", "reject", "reject-with-tcp-rst"] ∧
    paOptionSubTokens.contains "inactive" = false ∧
    paActionSubTokens.contains "count" = false ∧
    paActionSubTokens.contains "next" = false := by
  refine ⟨?_, rfl, by decide, by decide, by decide⟩
  obtain ⟨e0, he0⟩ := Option.isSome_iff_exists.mp (bad_term_unsupported hbad)
  obtain ⟨e, he⟩ := Option.isSome_iff_exists.mp
    (findSome?_isSome_of_mem findUnsupported hmem he0)
  obtain ⟨a, _, hae⟩ := List.exists_of_findSome?_eq_some he
  obtain ⟨n, f, v, hef⟩ := findUnsupported_shape hae
  refine ⟨n, f, v, ?_⟩
  have hvb : validateBlock h terms = some e := by
    rw [validateBlock_eq terms hz, he]
  rw [paFW_single_error hvb, hef]

/-- Claim C3 witness: the concrete unsupported inputs of the unit tests —
option inactive, action count and action next each fail, as does an
unsupported extra field. -/
theorem claim_C3_witness :
    (∃ n f v, paFW [(⟨"trust", "untrust", []⟩,
        [⟨"unsupported-option-term", "accept", ["inactive"], none, false, []⟩])] =
      .error (PAError.unsupportedFilter n f v)) ∧
    (∃ n f v, paFW [(⟨"trust", "untrust", []⟩,
        [⟨"test-count-action", "count", [], none, false, []⟩])] =
      .error (PAError.unsupportedFilter n f v)) ∧
    (∃ n f v, paFW [(⟨"trust", "untrust", []⟩,
        [⟨"test-next-action", "next", [], none, false, []⟩])] =
      .error (PAError.unsupportedFilter n f v)) := by
  refine ⟨?_, ?_, ?_⟩
  · exact (claim_C3 ⟨"trust", "untrust", []⟩
      [⟨"unsupported-option-term", "accept", ["inactive"], none, false, []⟩]
      ⟨"unsupported-option-term", "accept", ["inactive"], none, false, []⟩
      (by decide) (by decide)
      (Or.inr (Or.inr ⟨"inactive", by decide, by decide⟩))).1
  · exact (claim_C3 ⟨"trust", "untrust", []⟩
      [⟨"test-count-action", "count", [], none, false, []⟩]
      ⟨"test-count-action", "count", [], none, false, []⟩
      (by decide) (by decide) (Or.inr (Or.inl (by decide)))).1
  · exact (claim_C3 ⟨"trust", "untrust", []⟩
      [⟨"test-next-action", "next", [], none, false, []⟩]
      ⟨"test-next-action", "next", [], none, false, []⟩
      (by decide) (by decide) (Or.inr (Or.inl (by decide)))).1

/-- Claim C4: a 31-character zone name passes the Palo Alto length check and
is rendered on every rule of the block, while a 32-character from-zone fails
with PaloAltoFWNameTooLongError naming the source side and a 32-character
to-zone fails naming the destination side. -/
theorem claim_C4 (fz tz : String) (comments : List String) (terms : List PATerm)
    (hterms : ∀ u ∈ terms, findUnsupported u = none) :
    (fz.length = 31 → tz.length ≤ 31 →
      ∃ cfg, paFW [(⟨fz, tz, comments⟩, terms)] = .ok cfg ∧
        ∀ r ∈ cfg.rules, r.fromZone = fz ∧ r.toZone = tz) ∧
    (fz.length = 32 →
      paFW [(⟨fz, tz, comments⟩, terms)] =
        .error (.nameTooLong ("Source zone must be 31 characters max: " ++ fz))) ∧
    (fz.length ≤ 31 → tz.length = 32 →
      paFW [(⟨fz, tz, comments⟩, terms)] =
        .error (.nameTooLong ("Destination zone must be 31 characters max: " ++ tz))) := by
  refine ⟨?_, ?_, ?_⟩
  · intro h31 h31'
    have hz : checkZones fz tz = none := by
      unfold checkZones
      rw [if_neg (by omega), if_neg (by omega)]
    have hvb : validateBlock ⟨fz, tz, comments⟩ terms = none := by
      rw [validateBlock_eq terms hz]
      exact List.findSome?_eq_none_iff.mpr hterms
    refine ⟨_, paFW_single_ok hvb, ?_⟩
    intro r hr
    have hrules :
        (((paRenderGroups tagState0 [(⟨fz, tz, comments⟩, terms)]).2.map Prod.snd).flatten) =
          (terms.filter (fun t => !skipTerm t)).map
            (renderTerm fz tz (getTag tagState0 ⟨fz, tz, comments⟩).2) := by
      rw [paRenderGroups_single]
      simp
    rw [hrules] at hr
    obtain ⟨u, _, rfl⟩ := List.mem_map.mp hr
    exact ⟨rfl, rfl⟩
  · intro h32
    have hcz : checkZones fz tz =
        some (.nameTooLong ("Source zone must be 31 characters max: " ++ fz)) := by
      unfold checkZones
      rw [if_pos (by omega)]
    have hvb : validateBlock ⟨fz, tz, comments⟩ terms =
        some (.nameTooLong ("Source zone must be 31 characters max: " ++ fz)) := by
      unfold validateBlock
      simp only [hcz]
    exact paFW_single_error hvb
  · intro h31 h32
    have hcz : checkZones fz tz =
        some (.nameTooLong ("Destination zone must be 31 characters max: " ++ tz)) := by
      unfold checkZones
      rw [if_neg (by omega), if_pos (by omega)]
    have hvb : validateBlock ⟨fz, tz, comments⟩ terms =
        some (.nameTooLong ("Destination zone must be 31 characters max: " ++ tz)) := by
      unfold validateBlock
      simp only [hcz]
    exact paFW_single_error hvb

/-- Claim C4 witness: the statement evaluated on concrete 31- and
32-character zone names with a single accept term, as in the unit test. -/
theorem claim_C4_witness :
    (∃ cfg, paFW [(⟨"ZZZZZZZZZZZZZZZZZZZZZZZZZZZZZZZ", "dmz", []⟩,
        [⟨"policy", "accept", [], none, false, []⟩])] = .ok cfg ∧
      ∀ r ∈ cfg.rules, r.fromZone = "ZZZZZZZZZZZZZZZZZZZZZZZZZZZZZZZ" ∧ r.toZone = "dmz") ∧
    paFW [(⟨"ZZZZZZZZZZZZZZZZZZZZZZZZZZZZZZZZ", "dmz", []⟩,
        [⟨"policy", "accept", [], none, false, []⟩])] =
      .error (.nameTooLong ("Source zone must be 31 characters max: " ++
        "ZZZZZZZZZZZZZZZZZZZZZZZZZZZZZZZZ")) ∧
    paFW [(⟨"dmz", "ZZZZZZZZZZZZZZZZZZZZZZZZZZZZZZZZ", []⟩,
        [⟨"policy", "accept", [], none, false, []⟩])] =
      .error (.nameTooLong ("Destination zone must be 31 characters max: " ++
        "ZZZZZZZZZZZZZZZZZZZZZZZZZZZZZZZZ")) := by
  refine ⟨?_, ?_, ?_⟩
  · exact (claim_C4 "ZZZZZZZZZZZZZZZZZZZZZZZZZZZZZZZ" "dmz" []
      [⟨"policy", "accept", [], none, false, []⟩]
      (by decide)).1 (by decide) (by decide)
  · exact (claim_C4 "ZZZZZZZZZZZZZZZZZZZZZZZZZZZZZZZZ" "dmz" []
      [⟨"policy", "accept", [], none, false, []⟩]
      (by decide)).2.1 (by decide)
  · exact (claim_C4 "dmz" "ZZZZZZZZZZZZZZZZZZZZZZZZZZZZZZZZ" []
      [⟨"policy", "accept", [], none, false, []⟩]
      (by decide)).2.2 (by decide) (by decide)

/-- Claim C5: in an otherwise valid block with distinct term names, every
term whose stateless_reply flag is set or whose options include established
or tcp-established is silently omitted — construction succeeds and no rule
entry bears the term's name. -/
theorem claim_C5 (h : PAHeader) (terms : List PATerm)
    (hz : checkZones h.fromZone h.toZone = none)
    (hterms : ∀ u ∈ terms, findUnsupported u = none)
    (hnd : (terms.map PATerm.name).Nodup) :
    ∃ cfg, paFW [(h, terms)] = .ok cfg ∧
      ∀ t ∈ terms, skipTerm t = true → ∀ r ∈ cfg.rules, r.name ≠ t.name := by
  have hvb : validateBlock h terms = none := by
    rw [validateBlock_eq terms hz]
    exact List.findSome?_eq_none_iff.mpr hterms
  refine ⟨_, paFW_single_ok hvb, ?_⟩
  intro t hmem hskip r hr
  have hrules :
      (((paRenderGroups tagState0 [(h, terms)]).2.map Prod.snd).flatten) =
        (terms.filter (fun t => !skipTerm t)).map
          (renderTerm h.fromZone h.toZone (getTag tagState0 h).2) := by
    rw [paRenderGroups_single]
    simp
  rw [hrules] at hr
  obtain ⟨u, hu, rfl⟩ := List.mem_map.mp hr
  obtain ⟨humem, huskip⟩ := List.mem_filter.mp hu
  intro hname
  have hun : u.name = t.name := hname
  have : u = t := List.inj_on_of_nodup_map hnd humem hmem hun
  rw [this, hskip] at huskip
  cases huskip

/-- Claim C5 witness: the statement evaluated on the concrete block of the
unit tests — a stateless-reply term and a tcp-established term are omitted
while a plain term still renders. -/
theorem claim_C5_witness :
    ∃ cfg, paFW [(⟨"trust", "untrust", []⟩,
        [⟨"good-term-stateless-reply", "accept", [], none, true, []⟩,
         ⟨"tcp-established", "accept", ["tcp-established"], none, false, []⟩,
         ⟨"plain-term", "accept", [], none, false, []⟩])] = .ok cfg ∧
      ∀ t ∈ [⟨"good-term-stateless-reply", "accept", [], none, true, []⟩,
             ⟨"tcp-established", "accept", ["tcp-established"], none, false, []⟩,
             (⟨"plain-term", "accept", [], none, false, []⟩ : PATerm)],
        skipTerm t = true → ∀ r ∈ cfg.rules, r.name ≠ t.name :=
  claim_C5 ⟨"trust", "untrust", []⟩
    [⟨"good-term-stateless-reply", "accept", [], none, true, []⟩,
     ⟨"tcp-established", "accept", ["tcp-established"], none, false, []⟩,
     ⟨"plain-term", "accept", [], none, false, []⟩]
    (by decide) (by decide) (by decide)

/- ===================== Tag allocation lemmas ===================== -/

/-- The tag-state invariant: every assigned key-to-name pair has an emitted
tag entry bearing that name whose text is the comment component of the key. -/
def TagInvP (s : TagState) : Prop :=
  ∀ p ∈ s.assigned, PATagEntry.mk p.2 p.1.2.2 ∈ s.entries

/-- The empty tag state satisfies the invariant. -/
theorem tagInvP_tagState0 : TagInvP tagState0 := by
  intro p hp
  cases hp

/-- A successful lookup is preserved by extending the assignment list on the
right. -/
theorem lookupTag_append_some {a ext : List ((String × String × String) × String)}
    {k : String × String × String} {tn : String}
    (h : lookupTag a k = some tn) : lookupTag (a ++ ext) k = some tn := by
  unfold lookupTag at h ⊢
  obtain ⟨p, hp, hpt⟩ := Option.map_eq_some'.mp h
  rw [List.find?_append, hp]
  simp [hpt]

/-- A successful lookup locates the key-to-name pair in the assignment
list. -/
theorem lookupTag_mem {a : List ((String × String × String) × String)}
    {k : String × String × String} {tn : String}
    (h : lookupTag a k = some tn) : (k, tn) ∈ a := by
  unfold lookupTag at h
  obtain ⟨p, hp, hpt⟩ := Option.map_eq_some'.mp h
  have hmem := List.mem_of_find?_eq_some hp
  have hpk : p.1 = k := by
    have hdec := List.find?_some hp
    simpa using hdec
  have hpe : p = (k, tn) := by
    cases p
    cases hpk
    cases hpt
    rfl
  rw [← hpe]
  exact hmem

/-- getTag only ever appends to the assignment list. -/
theorem getTag_assigned (s : TagState) (h : PAHeader) :
    ∃ ext, (getTag s h).1.assigned = s.assigned ++ ext := by
  unfold getTag
  split
  · exact ⟨[], by simp⟩
  · split
    · exact ⟨[], by simp⟩
    · exact ⟨_, rfl⟩

/-- getTag only ever appends to the emitted tag entries. -/
theorem getTag_entries (s : TagState) (h : PAHeader) :
    ∃ ext, (getTag s h).1.entries = s.entries ++ ext := by
  unfold getTag
  split
  · exact ⟨[], by simp⟩
  · split
    · exact ⟨[], by simp⟩
    · exact ⟨_, rfl⟩

/-- getTag preserves the tag-state invariant: a fresh allocation emits the
matching entry in the same step. -/
theorem getTag_inv {s : TagState} (h : PAHeader) (hinv : TagInvP s) :
    TagInvP (getTag s h).1 := by
  unfold getTag
  split
  · exact hinv
  · split
    · exact hinv
    · intro p hp
      rcases List.mem_append.mp hp with hp | hp
      · exact List.mem_append_left _ (hinv p hp)
      · rw [List.mem_singleton.mp hp]
        exact List.mem_append_right _ (List.mem_singleton.mpr rfl)

/-- A header with no comment lines obtains no tag and leaves the state
unchanged. -/
theorem getTag_nil {s : TagState} {h : PAHeader} (hc : h.comments = []) :
    getTag s h = (s, []) := by
  unfold getTag
  rw [if_pos]
  rw [hc]
  rfl

/-- A header with comment lines obtains exactly one tag, henceforth bound to
its key in the post-state. -/
theorem getTag_cons {s : TagState} {h : PAHeader} (hc : h.comments ≠ []) :
    ∃ tn, (getTag s h).2 = [tn] ∧
      lookupTag (getTag s h).1.assigned (tagKey h) = some tn := by
  have hce : ¬h.comments.isEmpty = true := by
    cases hcc : h.comments with
    | nil => exact absurd hcc hc
    | cons a as => simp
  unfold getTag
  rw [if_neg hce]
  split
  next tn hl => exact ⟨tn, rfl, hl⟩
  next hl =>
    refine ⟨_, rfl, ?_⟩
    have hfind : s.assigned.find? (fun p => decide (p.1 = tagKey h)) = none := by
      unfold lookupTag at hl
      exact Option.map_eq_none'.mp hl
    unfold lookupTag
    rw [List.find?_append, hfind]
    simp [List.find?]

/-- The step equation for rendering a block list. -/
theorem paRenderGroups_cons (s : TagState) (b : PAHeader × List PATerm)
    (bs : List (PAHeader × List PATerm)) :
    paRenderGroups s (b :: bs) =
      ((paRenderGroups (getTag s b.1).1 bs).1,
       (b, (b.2.filter (fun t => !skipTerm t)).map
           (renderTerm b.1.fromZone b.1.toZone (getTag s b.1).2)) ::
         (paRenderGroups (getTag s b.1).1 bs).2) := rfl

/-- Rendering a block list only ever appends to the assignment list. -/
theorem prg_assigned (bs : List (PAHeader × List PATerm)) :
    ∀ s, ∃ ext, (paRenderGroups s bs).1.assigned = s.assigned ++ ext := by
  induction bs with
  | nil => intro s; exact ⟨[], by simp [paRenderGroups]⟩
  | cons b bs ih =>
    intro s
    rw [paRenderGroups_cons]
    obtain ⟨e1, he1⟩ := getTag_assigned s b.1
    obtain ⟨e2, he2⟩ := ih (getTag s b.1).1
    exact ⟨e1 ++ e2, by rw [he2, he1, List.append_assoc]⟩

/-- Rendering a block list only ever appends to the emitted tag entries. -/
theorem prg_entries (bs : List (PAHeader × List PATerm)) :
    ∀ s, ∃ ext, (paRenderGroups s bs).1.entries = s.entries ++ ext := by
  induction bs with
  | nil => intro s; exact ⟨[], by simp [paRenderGroups]⟩
  | cons b bs ih =>
    intro s
    rw [paRenderGroups_cons]
    obtain ⟨e1, he1⟩ := getTag_entries s b.1
    obtain ⟨e2, he2⟩ := ih (getTag s b.1).1
    exact ⟨e1 ++ e2, by rw [he2, he1, List.append_assoc]⟩

/-- Rendering a block list preserves the tag-state invariant. -/
theorem prg_inv (bs : List (PAHeader × List PATerm)) :
    ∀ s, TagInvP s → TagInvP (paRenderGroups s bs).1 := by
  induction bs with
  | nil => intro s hinv; exact hinv
  | cons b bs ih =>
    intro s hinv
    rw [paRenderGroups_cons]
    exact ih (getTag s b.1).1 (getTag_inv b.1 hinv)

/-- Per-block tag facts of a rendered block list: a comment-free header tags
no rule, a comment-bearing header tags every rule with a single tag bound to
its key in the final state and emitted with the comment concatenation as
text. -/
theorem prg_spec (bs : List (PAHeader × List PATerm)) :
    ∀ s, TagInvP s → ∀ p ∈ (paRenderGroups s bs).2,
      (p.1.1.comments = [] → ∀ r ∈ p.2, r.tags = []) ∧
      (p.1.1.comments ≠ [] → ∃ tn, (∀ r ∈ p.2, r.tags = [tn]) ∧
        lookupTag (paRenderGroups s bs).1.assigned (tagKey p.1.1) = some tn ∧
        PATagEntry.mk tn (String.intercalate " " p.1.1.comments) ∈
          (paRenderGroups s bs).1.entries) := by
  induction bs with
  | nil => intro s _ p hp; cases hp
  | cons b bs ih =>
    intro s hinv p hp
    rw [paRenderGroups_cons] at hp ⊢
    rcases List.mem_cons.mp hp with rfl | hp
    · constructor
      · intro hc r hr
        obtain ⟨u, _, rfl⟩ := List.mem_map.mp hr
        show (getTag s b.1).2 = []
        rw [getTag_nil hc]
      · intro hc
        obtain ⟨tn, htn, hlook⟩ := getTag_cons hc
        refine ⟨tn, ?_, ?_, ?_⟩
        · intro r hr
          obtain ⟨u, _, rfl⟩ := List.mem_map.mp hr
          show (getTag s b.1).2 = [tn]
          exact htn
        · obtain ⟨ext, hext⟩ := prg_assigned bs (getTag s b.1).1
          show lookupTag (paRenderGroups (getTag s b.1).1 bs).1.assigned
            (tagKey b.1) = some tn
          rw [hext]
          exact lookupTag_append_some hlook
        · have hent := getTag_inv b.1 hinv _ (lookupTag_mem hlook)
          obtain ⟨ext, hext⟩ := prg_entries bs (getTag s b.1).1
          show PATagEntry.mk tn (String.intercalate " " b.1.comments) ∈
            (paRenderGroups (getTag s b.1).1 bs).1.entries
          rw [hext]
          exact List.mem_append_left _ hent
    · exact ih (getTag s b.1).1 (getTag_inv b.1 hinv) p hp

/-- Claim C6: per compilation, a comment-free header produces no tag on its
rules; a comment-bearing header tags every one of its rules with exactly one
tag whose emitted descriptive text is the in-order space-joined
concatenation of that header's comment lines; and two comment-bearing
headers with the same tag key carry the same tag on their rules (the first
allocates it, later ones reuse it). -/
theorem claim_C6 (blocks : List (PAHeader × List PATerm)) :
    (∀ p ∈ (paRenderGroups tagState0 blocks).2, p.1.1.comments = [] →
      ∀ r ∈ p.2, r.tags = []) ∧
    (∀ p ∈ (paRenderGroups tagState0 blocks).2, p.1.1.comments ≠ [] →
      ∃ tn, (∀ r ∈ p.2, r.tags = [tn]) ∧
        PATagEntry.mk tn (String.intercalate " " p.1.1.comments) ∈
          (paRenderGroups tagState0 blocks).1.entries) ∧
    (∀ p ∈ (paRenderGroups tagState0 blocks).2,
      ∀ q ∈ (paRenderGroups tagState0 blocks).2,
      p.1.1.comments ≠ [] → q.1.1.comments ≠ [] → tagKey p.1.1 = tagKey q.1.1 →
      ∀ r ∈ p.2, ∀ r2 ∈ q.2, r.tags = r2.tags) := by
  refine ⟨?_, ?_, ?_⟩
  · intro p hp hc
    exact (prg_spec blocks tagState0 tagInvP_tagState0 p hp).1 hc
  · intro p hp hc
    obtain ⟨tn, htags, _, hent⟩ := (prg_spec blocks tagState0 tagInvP_tagState0 p hp).2 hc
    exact ⟨tn, htags, hent⟩
  · intro p hp q hq hcp hcq hk r hr r2 hr2
    obtain ⟨tnp, htagsp, hlookp, _⟩ :=
      (prg_spec blocks tagState0 tagInvP_tagState0 p hp).2 hcp
    obtain ⟨tnq, htagsq, hlookq, _⟩ := (prg_spec blocks tagState0 tagInvP_tagState0 q hq).2 hcq
    rw [hk] at hlookp
    rw [hlookq] at hlookp
    obtain rfl := Option.some.inj hlookp
    rw [htagsp r hr, htagsq r2 hr2]

/-- Claim C6 witness: the statement evaluated on the concrete three-header
policy of the unit test — the comment-bearing first header tags its rule
with one tag emitted with text comment 1 comment 2, and the comment-free
third header tags nothing. -/
theorem claim_C6_witness :
    (∃ tn, (∀ r ∈ [(⟨"policy-1", "allow", none, none, "trust", "untrust",
          ["trust_untrust_policy-comment-1"]⟩ : PARule)], r.tags = [tn]) ∧
      PATagEntry.mk tn (String.intercalate " " ["comment 1", "comment 2"]) ∈
        (paRenderGroups tagState0
          [(⟨"trust", "untrust", ["comment 1", "comment 2"]⟩,
            [⟨"policy-1", "accept", [], none, false, []⟩]),
           (⟨"trust", "dmz-2", []⟩,
            [⟨"policy-4", "accept", [], none, false, []⟩])]).1.entries) ∧
    (∀ r ∈ [(⟨"policy-4", "allow", none, none, "trust", "dmz-2", []⟩ : PARule)],
      r.tags = ([] : List String)) := by
  have h := claim_C6
    [(⟨"trust", "untrust", ["comment 1", "comment 2"]⟩,
      [⟨"policy-1", "accept", [], none, false, []⟩]),
     (⟨"trust", "dmz-2", []⟩, [⟨"policy-4", "accept", [], none, false, []⟩])]
  constructor
  · exact h.2.1
      ((⟨"trust", "untrust", ["comment 1", "comment 2"]⟩,
        [⟨"policy-1", "accept", [], none, false, []⟩]),
       [⟨"policy-1", "allow", none, none, "trust", "untrust",
        ["trust_untrust_policy-comment-1"]⟩])
      (by decide) (by decide)
  · exact h.1
      ((⟨"trust", "dmz-2", []⟩, [⟨"policy-4", "accept", [], none, false, []⟩]),
       [⟨"policy-4", "allow", none, none, "trust", "dmz-2", []⟩])
      (by decide) (by decide)
